import Mathlib

/- Shallow embedding of the wasmer WASIX dynamic loader
   (src/lib/wasix/src/state/dl.rs, src/lib/wasix/src/syscalls/wasix/dlopen.rs)
   and of the process execution engine (src/lib/wasix/src/bin_factory/exec.rs).

   Machine bytes are modelled as `Fin 256`, the u32 handle counter as a `Nat`
   kept below `2 ^ 32` by explicit wrapping, guest memory as a list of bytes,
   and the externally supplied collaborators (signal preamble, file system,
   compiler, instantiation, `rewind_ext`, the guest's `_start` body) as input
   data describing the result of the corresponding external call. -/

/-- A machine byte, as stored in the shared linear memory (`u8` in the source). -/
abbrev Byte := Fin 256

/-- A process exit code (`ExitCode` in the source wraps a numeric code;
    `is_success` tests for zero). -/
abbrev ExitCode := Nat

/-- Guest errno values used by the loader syscalls and the execution engine
    (`wasmer_wasix_types::wasi::Errno`).  `IoErr` models `Errno::Io`. -/
inductive Errno
  | Success
  | Inval
  | IoErr
  | Notsup
  | Noexec
  deriving DecidableEq

/-- Conversion `Errno -> ExitCode` (the source's `Errno::X.into()`); the
    numeric values are the WASI errno codes. -/
def Errno.toExitCode : Errno → ExitCode
  | .Success => 0
  | .Inval => 28
  | .IoErr => 29
  | .Notsup => 58
  | .Noexec => 45

/-- A value read out of an exported wasm global
    (`wasmer::Value` in `DlState::get_symbol`, dl.rs lines 112-122).
    Only the `I32` and `I64` cases are accepted by the source; every other
    value type is collapsed into `otherVal`. -/
inductive WasmValue
  | i32Val (v : Int)
  | i64Val (v : Int)
  | otherVal

/-- The `v as usize` conversion applied to the global's value in
    dl.rs lines 112-122 (64-bit host: an `i32` sign-extends and an `i64`
    reinterprets, both reduce to the value modulo `2 ^ 64`); a non-integer
    global has no offset and yields `none` (dl.rs lines 118-121). -/
def WasmValue.asUsize : WasmValue → Option Nat
  | .i32Val v => some ((v % (2 ^ 64 : Int)).toNat)
  | .i64Val v => some ((v % (2 ^ 64 : Int)).toNat)
  | .otherVal => none

/-- The observable face of a child `wasmer::Instance`: its exported globals,
    whether it exports `__wasm_call_ctors` / `__wasm_call_dtors`, and whether
    calling the constructor succeeds (the call itself is external code). -/
structure InstanceModel where
  globals : String → Option WasmValue
  hasCtor : Bool
  ctorOk : Bool
  hasDtor : Bool

/-- Data associated with a loaded module (`ModuleData` in dl.rs lines 20-27):
    the instance together with the linear memory stored for it. -/
structure ModuleData where
  inst : InstanceModel
  memory : List Byte

/-- The dynamic-loader registry (`DlState` in dl.rs lines 7-18).  The
    `HashMap<u32, ModuleData>` is modelled as an association list where a
    later `insert` shadows an earlier binding, the `AtomicU32` counter as a
    `Nat` below `2 ^ 32`, and the mutexes are dropped (all claims are about
    the serialized single-thread behaviour).  The unused `imports` template
    is omitted. -/
structure DlState where
  modules : List (Nat × ModuleData)
  next_handle : Nat
  last_error : String

/-- The modulus of the `AtomicU32` handle counter. -/
def u32Mod : Nat := 2 ^ 32

/-- `DlState::new` (dl.rs lines 63-70): empty registry, counter starts at 1. -/
def DlState.new : DlState := ⟨[], 1, ""⟩

/-- `DlState::add_module` (dl.rs lines 73-93): `fetch_add(1)` on the wrapping
    u32 counter yields the handle, the `(instance, memory)` pair is inserted,
    and then `call_constructors` runs `__wasm_call_ctors` of every registered
    module, discarding each result (`let _ = ctor.call(..)`, dl.rs line 151).
    Returns the handle, the new state, and the list of discarded constructor
    outcomes (true = the constructor call succeeded). -/
def DlState.add_module (s : DlState) (inst : InstanceModel) (memory : List Byte) :
    Nat × DlState × List Bool :=
  let handle := s.next_handle % u32Mod
  let s' : DlState :=
    { s with
      modules := (handle, ⟨inst, memory⟩) :: s.modules
      next_handle := (s.next_handle + 1) % u32Mod }
  let ctorResults :=
    s'.modules.filterMap (fun p => if p.2.inst.hasCtor then some p.2.inst.ctorOk else none)
  (handle, s', ctorResults)

/-- Byte of the linear memory at index `i` (out-of-range defaults to 0; the
    source's raw-pointer read never reaches that case on the in-bounds inputs
    the theorems quantify over). -/
def byteAt (mem : List Byte) (i : Nat) : Nat := (mem.getD i 0).val

/-- Little-endian read of `n` bytes starting at `off`
    (`u32::from_le_bytes` in dl.rs line 133 is `readLeN mem off 4`). -/
def readLeN (mem : List Byte) (off : Nat) : Nat → Nat
  | 0 => 0
  | n + 1 => byteAt mem off + 256 * readLeN mem (off + 1) n

/-- `DlState::get_symbol` (dl.rs lines 105-140): look the handle up, resolve
    the symbol among the instance's exported globals, convert the integer
    global to a byte offset, and dereference the stored memory there.  The
    source reads exactly 4 bytes unconditionally (dl.rs lines 126-133,
    "Assuming 32-bit integers") and zero-extends the `u32` to `u64`.  The raw
    `slice::from_raw_parts` read is not bounds-checked in the source (it is
    undefined behaviour past the end of the memory); the embedding models the
    out-of-range case as `none`. -/
def DlState.get_symbol (s : DlState) (handle : Nat) (symbol : String) : Option Nat :=
  match s.modules.lookup handle with
  | none => none
  | some md =>
    match md.inst.globals symbol with
    | none => none
    | some g =>
      match g.asUsize with
      | none => none
      | some off =>
        if off + 4 ≤ md.memory.length then some (readLeN md.memory off 4) else none

/-- Modelled from the spec: section 4.1 `close(handle)` removes the handle
    from the registry.  The registry-level close is specified but not wired
    through the ABI in the source (`dlclose` in dlopen.rs lines 353-355 is a
    stub and dl.rs has no remove), so the operation is taken from the spec's
    words; it does not touch the handle counter. -/
def DlState.close (s : DlState) (h : Nat) : DlState :=
  { s with modules := s.modules.filter (fun p => p.1 != h) }

/-- Follows the spec's words (section 4.1 step 3) rather than the source, for
    comparison with `DlState.get_symbol`: read 8 bytes if the offset is
    8-aligned and in bounds, else 4 bytes if 4-aligned and in bounds, else
    1 byte if in bounds, else `none`. -/
def lookupReadSpec (mem : List Byte) (off : Nat) : Option Nat :=
  if off % 8 = 0 ∧ off + 8 ≤ mem.length then some (readLeN mem off 8)
  else if off % 4 = 0 ∧ off + 4 ≤ mem.length then some (readLeN mem off 4)
  else if off + 1 ≤ mem.length then some (readLeN mem off 1)
  else none

/-- A registry operation: a registration (`DlState::add_module`) or a close. -/
inductive RegOp
  | register (inst : InstanceModel) (memory : List Byte)
  | close (h : Nat)

/-- Number of `register` operations in a sequence. -/
def registerCount : List RegOp → Nat
  | [] => 0
  | .register _ _ :: ops => registerCount ops + 1
  | .close _ :: ops => registerCount ops

/-- Run a sequence of registry operations, returning the final state and the
    list of handles issued by the `register` operations, in order. -/
def runOps : DlState → List RegOp → DlState × List Nat
  | s, [] => (s, [])
  | s, .register inst mem :: ops =>
    let r := s.add_module inst mem
    let rest := runOps r.2.1 ops
    (rest.1, r.1 :: rest.2)
  | s, .close h :: ops => runOps (s.close h) ops

/-- The decoded `dlopen` flags value (`DlFlags::from_native(flags)`,
    dlopen.rs line 188).  The decoding of the raw guest `i32` lives in
    `wasmer_wasix_types`, outside src/; the embedding works with the decoded
    value, of which the source only distinguishes `Now` from everything else. -/
inductive DlFlags
  | Now
  | Lazy
  | Other
  deriving DecidableEq

/-- The external collaborators of one `dlopen` call (dlopen.rs lines 175-291):
    each field records the outcome of the corresponding external step, in
    source order.  `preamble` is the early-return errno of the
    signals/backoff/snapshot preamble (`none` = fall through); `pathRead` is
    the result of `read_path_from_wasm`; `fileBytes` of `std::fs::read`;
    `compileOk` of `Module::from_binary`; `envInnerOk` of `env.try_inner()`;
    `primaryMemory` of `exports.get_memory("memory")` on the primary instance
    (its byte contents); `instantiateOk` of `Instance::new`; `childInstance`
    describes the instantiated child; `writeHandleOk` is the outcome of
    `write_handle_to_wasm`. -/
structure DlOpenEnv where
  preamble : Option Errno
  flags : DlFlags
  pathRead : Option String
  fileBytes : Option (List Byte)
  compileOk : Bool
  envInnerOk : Bool
  primaryMemory : Option (List Byte)
  instantiateOk : Bool
  childInstance : InstanceModel
  writeHandleOk : Bool

/-- Observable outcome of one `dlopen` call: the errno returned, the registry
    state afterwards, the handle value written at `out_handle_ptr` (`none` =
    that guest memory was not modified), and the discarded constructor-call
    outcomes. -/
structure DlOpenResult where
  errno : Errno
  state : DlState
  writtenHandle : Option Nat
  ctorResults : List Bool

/-- `dlopen` (dlopen.rs lines 175-218) together with its helper
    `create_module_instance` (lines 234-281): preamble, flags check
    (only `Now` accepted, line 189), path read (`Inval`), file read (`Io`),
    compile / env / primary memory / instantiate (`Inval` each), registration
    via `DlState::add_module` with the primary memory as the child's memory,
    and finally the handle write (`Inval` on failure).  Constructor outcomes
    are discarded by the source. -/
def dlopen (env : DlOpenEnv) (s : DlState) : DlOpenResult :=
  match env.preamble with
  | some e => ⟨e, s, none, []⟩
  | none =>
    if env.flags ≠ DlFlags.Now then ⟨.Notsup, s, none, []⟩
    else
      match env.pathRead with
      | none => ⟨.Inval, s, none, []⟩
      | some _ =>
        match env.fileBytes with
        | none => ⟨.IoErr, s, none, []⟩
        | some _ =>
          if env.compileOk = false then ⟨.Inval, s, none, []⟩
          else if env.envInnerOk = false then ⟨.Inval, s, none, []⟩
          else
            match env.primaryMemory with
            | none => ⟨.Inval, s, none, []⟩
            | some mem =>
              if env.instantiateOk = false then ⟨.Inval, s, none, []⟩
              else
                let r := s.add_module env.childInstance mem
                if env.writeHandleOk = false then ⟨.Inval, r.2.1, none, r.2.2⟩
                else ⟨.Success, r.2.1, some r.1, r.2.2⟩

/-- The external collaborators of one `dlsym` call (dlopen.rs lines 306-341):
    `symbolRead` is the result of `read_utf8_string` on the symbol name and
    `writeOk` the outcome of `ret_ptr.write`. -/
structure DlSymEnv where
  symbolRead : Option String
  writeOk : Bool

/-- `dlsym` (dlopen.rs lines 306-341): read the symbol name (`Inval` on
    failure), call `DlState::get_symbol` (`Inval` on `None`), then write the
    64-bit value to `ret_ptr` (`Inval` on failure, else `Success`).  The
    second component is the value written at `out_value_ptr` (`none` = that
    guest memory was not modified). -/
def dlsym (env : DlSymEnv) (s : DlState) (handle : Nat) : Errno × Option Nat :=
  match env.symbolRead with
  | none => (Errno.Inval, none)
  | some sym =>
    match s.get_symbol handle sym with
    | none => (Errno.Inval, none)
    | some v => if env.writeOk then (Errno.Success, some v) else (Errno.Inval, none)

/-- `TaintReason` (runtime, exec.rs lines 289, 318, 322): the durable signal
    passed to `runtime.on_taint`. -/
inductive TaintReason
  | NonZeroExitCode (code : ExitCode)
  | UnknownWasiVersion
  | RuntimeErrorTaint
  deriving DecidableEq

/-- The error half of the thread's final `Result` (a `WasiRuntimeError`):
    either a wrapped `WasiError::Exit(code)`, some other runtime error whose
    `as_exit_code` is recorded, or the spec-modelled run-guard error. -/
inductive ThreadError
  | exitErr (code : ExitCode)
  | runtimeErr (asExit : Option ExitCode)
  | guardErr (code : ExitCode)
  deriving DecidableEq

/-- `WasiRuntimeError::as_exit_code` (exec.rs line 332) on the errors that
    `call_module` produces. -/
def ThreadError.asExitCode : ThreadError → Option ExitCode
  | .exitErr c => some c
  | .runtimeErr a => a
  | .guardErr c => some c

/-- The thread's `Finished` payload (`Result<ExitCode, WasiRuntimeError>`). -/
inductive FinishStatus
  | finOk (code : ExitCode)
  | finErr (e : ThreadError)
  deriving DecidableEq

/-- Observable actions of one `call_module` invocation, in order:
    `set_status_running`, `runtime.on_taint`, `blocking_on_exit`, the
    `run_recycle` invocation, and `set_status_finished`. -/
inductive Event
  | setRunning
  | taintEvt (t : TaintReason)
  | onExit (code : ExitCode)
  | recycle
  | setFinished (r : FinishStatus)
  deriving DecidableEq

/-- `RewindState` (the suspension payload produced by the guest): the
    memory-stack snapshot, the rewind-stack region, the store-side data and
    the address-width flag, as listed in exec.rs lines 243-262. -/
structure RewindState where
  memory_stack : List Byte
  rewind_stack : List Byte
  store_data : List Byte
  is_64bit : Bool
  deriving DecidableEq

/-- The payload delivered to a resumed guest (the trigger's value). -/
abbrev RewindResult := List Byte

/-- `RewindResultType` (exec.rs line 302 uses `RewindWithResult`). -/
inductive RewindResultType
  | RewindRestart
  | RewindWithResult (result : RewindResult)
  deriving DecidableEq

/-- The payload of `WasiError::DeepSleep` (exec.rs lines 292-315): an opaque
    trigger token and the rewind payload. -/
structure DeepSleepData where
  trigger : Nat
  rewind : RewindState
  deriving DecidableEq

/-- Classification of what `start.call(&mut store, &[])` returned
    (exec.rs lines 284-328): `startOk` is the `Ok` case; the others are the
    downcast `WasiError` variants, with every non-`WasiError` runtime error
    collapsed into `otherRuntimeErr` carrying its `as_exit_code`. -/
inductive StartOutcome
  | startOk
  | exit (code : ExitCode)
  | threadExit
  | deepSleep (d : DeepSleepData)
  | unknownWasiVersion
  | otherRuntimeErr (asExit : Option ExitCode)
  deriving DecidableEq

/-- The inputs of one `call_module` invocation (exec.rs lines 226-232) plus
    the outcomes of its external calls: `rewind_state` is the argument of the
    same name, `rewindErrno` the errno that `rewind_ext` returns if invoked,
    `hasStart` whether `get_start` finds `_start`, `startOutcome` what the
    `_start` call returns, and `hasRecycler` whether a recycle callback was
    supplied. -/
structure CallEnv where
  rewind_state : Option (RewindState × RewindResultType)
  rewindErrno : Errno
  hasStart : Bool
  startOutcome : StartOutcome
  hasRecycler : Bool
  deriving DecidableEq

/-- What the respawn continuation built in the `DeepSleep` branch closes over
    (exec.rs lines 294-306): the rewind payload, the trigger handed to
    `resume_wasm_after_poller`, and the recycler (the thread run guard moves
    into the closure as well, which is why no `Finished` transition happens
    on suspension). -/
structure SuspendData where
  rewind : RewindState
  trigger : Nat
  hasRecycler : Bool
  deriving DecidableEq

/-- Modelled from the spec: `WasiThreadRunGuard` teardown (os/task/thread,
    not under src/).  Per section 4.3 the run guard marks the thread Finished
    with an error when `call_module` leaves on an error path without an
    explicit status transition, and per scenario S6 that error corresponds to
    the exit code of the path. -/
def guardFinish (code : ExitCode) : Event :=
  .setFinished (.finErr (.guardErr code))

/-- Common tail of every non-deep-sleep outcome (exec.rs lines 344-349):
    taint events from classification, then `blocking_on_exit` with the
    resolved code, the `run_recycle` invocation, and the explicit
    `set_status_finished`. -/
def terminalEvents (taints : List Event) (code : ExitCode) (fin : FinishStatus) :
    List Event :=
  taints ++ [.onExit code, .recycle, .setFinished fin]

/-- `call_module` (exec.rs lines 226-350).  Returns the emitted events and,
    when the guest descended into deep sleep, the data captured by the
    respawn continuation.  Branches, in source order: mark the thread
    running; apply the rewind state if present (non-success errno: on-exit +
    recycle + return, lines 250-267); look up `_start` (absent: on-exit with
    `Noexec` + recycle + return, lines 276-281); classify the `_start`
    outcome (lines 284-328); compute the exit code (lines 331-342, note that
    an `Ok` carrying a non-success errno still maps to a `Success` on-exit
    code while the `Finished` status keeps the errno's exit code); then
    on-exit, recycle and `set_status_finished` (lines 345-349).  The deep
    sleep branch returns before any of those.  The two early error paths end
    with the spec-modelled `guardFinish`. -/
def call_module (env : CallEnv) : List Event × Option SuspendData :=
  let ev0 : List Event := [.setRunning]
  let rewindFailed : Bool :=
    match env.rewind_state with
    | some _ => env.rewindErrno != Errno.Success
    | none => false
  if rewindFailed then
    (ev0 ++ [.onExit env.rewindErrno.toExitCode, .recycle,
             guardFinish env.rewindErrno.toExitCode], none)
  else if env.hasStart = false then
    (ev0 ++ [.onExit Errno.Noexec.toExitCode, .recycle,
             guardFinish Errno.Noexec.toExitCode], none)
  else
    match env.startOutcome with
    | .deepSleep d => (ev0, some ⟨d.rewind, d.trigger, env.hasRecycler⟩)
    | .startOk =>
      (ev0 ++ terminalEvents [] Errno.Success.toExitCode (.finOk Errno.Success.toExitCode),
       none)
    | .threadExit =>
      (ev0 ++ terminalEvents [] Errno.Success.toExitCode (.finOk Errno.Success.toExitCode),
       none)
    | .exit c =>
      if c == 0 then
        (ev0 ++ terminalEvents [] Errno.Success.toExitCode (.finOk Errno.Success.toExitCode),
         none)
      else
        (ev0 ++ terminalEvents [.taintEvt (.NonZeroExitCode c)]
                ((ThreadError.exitErr c).asExitCode.getD Errno.Noexec.toExitCode)
                (.finErr (.exitErr c)),
         none)
    | .unknownWasiVersion =>
      (ev0 ++ terminalEvents [.taintEvt .UnknownWasiVersion]
              Errno.Success.toExitCode (.finOk Errno.Noexec.toExitCode),
       none)
    | .otherRuntimeErr a =>
      (ev0 ++ terminalEvents [.taintEvt .RuntimeErrorTaint]
              ((ThreadError.runtimeErr a).asExitCode.getD Errno.Noexec.toExitCode)
              (.finErr (.runtimeErr a)),
       none)

/-- The external behaviour of a resumed run: the errno of the rewind
    application, whether `_start` is still exported, and what it returns. -/
structure ResumeEnv where
  rewindErrno : Errno
  hasStart : Bool
  startOutcome : StartOutcome
  deriving DecidableEq

/-- The respawn continuation (exec.rs lines 295-306): invoked with the rewind
    result, it re-enters `call_module` with
    `rewind_state = Some((rewind, RewindWithResult(rewind_result)))` and the
    captured recycler. -/
def respawn (s : SuspendData) (renv : ResumeEnv) (rewind_result : RewindResult) :
    List Event × Option SuspendData :=
  call_module
    ⟨some (s.rewind, .RewindWithResult rewind_result),
     renv.rewindErrno, renv.hasStart, renv.startOutcome, s.hasRecycler⟩

/-- Number of `run_recycle` invocations among the events. -/
def recycleCount (evts : List Event) : Nat := evts.count .recycle

/- Concrete inputs used by counterexamples and witnesses. -/

/-- Eight bytes of shared linear memory holding the little-endian value
    0x0011223344556677 at offset 0 (spec scenario S4). -/
def exMem8 : List Byte := [0x77, 0x66, 0x55, 0x44, 0x33, 0x22, 0x11, 0x00]

/-- A child instance exporting an i32 global `g = 0`, a function-typed-like
    export `f` of unsupported value type, a failing `__wasm_call_ctors`, and
    no destructor. -/
def exInst : InstanceModel :=
  ⟨fun sym =>
    if sym = "g" then some (WasmValue.i32Val 0)
    else if sym = "f" then some WasmValue.otherVal
    else none,
   true, false, false⟩

/-- The module data registered for `exInst` with `exMem8` as shared memory. -/
def exMd : ModuleData := ⟨exInst, exMem8⟩

/-- A registry holding `exMd` under handle 1. -/
def exState : DlState := ⟨[(1, exMd)], 2, ""⟩

/-- A fully successful `dlopen` environment whose child constructor fails. -/
def envEx : DlOpenEnv :=
  ⟨none, .Now, some "/lib/side.wasm", some [], true, true, some exMem8, true, exInst, true⟩

/-- The same environment called with the `Lazy` flag (spec scenario S5). -/
def envLazy : DlOpenEnv :=
  ⟨none, .Lazy, some "/lib/side.wasm", some [], true, true, some exMem8, true, exInst, true⟩

/-- A small operation sequence: two registrations, a close, a registration. -/
def opsEx : List RegOp :=
  [.register exInst exMem8, .register exInst exMem8, .close 1, .register exInst exMem8]

/-- A concrete deep-sleep payload. -/
def dEx : DeepSleepData := ⟨7, ⟨[1], [2], [3], false⟩⟩

/-- A `call_module` environment whose guest immediately deep sleeps. -/
def cmEnvDeep : CallEnv := ⟨none, .Success, true, .deepSleep dEx, true⟩

/-- A `call_module` environment whose `_start` returns `Ok`. -/
def cmEnvOk : CallEnv := ⟨none, .Success, true, .startOk, true⟩

/-- A `call_module` environment whose `_start` exits with code 7. -/
def cmEnvExit7 : CallEnv := ⟨none, .Success, true, .exit 7, true⟩

/-- A `call_module` environment whose instance lacks `_start`. -/
def cmEnvNoStart : CallEnv := ⟨none, .Success, false, .startOk, true⟩

/-- A resumed-run environment that terminates normally. -/
def resEnvOk : ResumeEnv := ⟨.Success, true, .startOk⟩

/- Helper lemmas. -/

/-- Every byte read is below 256. -/
theorem byteAt_lt (mem : List Byte) (i : Nat) : byteAt mem i < 256 :=
  (mem.getD i 0).isLt

/-- A little-endian read of `n` bytes is below `256 ^ n`. -/
theorem readLeN_lt (n : Nat) : ∀ (mem : List Byte) (off : Nat),
    readLeN mem off n < 256 ^ n := by
  induction n with
  | zero => intro mem off; simp [readLeN]
  | succ n ih =>
    intro mem off
    have h1 := byteAt_lt mem off
    have h2 := ih mem (off + 1)
    have h3 : 256 ^ (n + 1) = 256 * 256 ^ n := by ring
    simp only [readLeN]
    omega

/- Claim C1. -/

/-- Claim C1 (counterexample): at an 8-aligned in-bounds offset the spec's
    rules call for an 8-byte little-endian read (`0x0011223344556677` on
    `exMem8`), but `DlState.get_symbol` returns the 4-byte read
    `0x44556677`, so the claimed width selection is false on the code. -/
theorem c1_counterexample :
    DlState.get_symbol exState 1 "g" = some 0x44556677 ∧
    lookupReadSpec exMem8 0 = some 0x0011223344556677 ∧
    (0x44556677 : Nat) ≠ 0x0011223344556677 := by
  refine ⟨by decide, by decide, by norm_num⟩

/-- Claim C1 (amended): for every registered handle and every symbol naming
    an exported integer global with byte offset `O`, lookup reads exactly
    4 bytes little-endian at `O` and zero-extends, regardless of the
    alignment of `O`; no 8-byte or 1-byte read is ever performed (the
    out-of-bounds case, undefined behaviour in the source, is modelled as
    `none`). -/
theorem c1_amended_lookup_reads_four_bytes
    (s : DlState) (h : Nat) (sym : String) (md : ModuleData)
    (g : WasmValue) (off : Nat)
    (hmd : s.modules.lookup h = some md)
    (hg : md.inst.globals sym = some g)
    (hoff : g.asUsize = some off) :
    DlState.get_symbol s h sym =
      if off + 4 ≤ md.memory.length then some (readLeN md.memory off 4) else none := by
  simp [DlState.get_symbol, hmd, hg, hoff]

/-- Claim C1 witness: the amended theorem evaluated on `exState`. -/
theorem c1_witness :
    DlState.get_symbol exState 1 "g" =
      if 0 + 4 ≤ exMd.memory.length then some (readLeN exMd.memory 0 4) else none :=
  c1_amended_lookup_reads_four_bytes exState 1 "g" exMd (WasmValue.i32Val 0) 0
    rfl rfl rfl

/- Claim C8. -/

/-- Claim C8: when the symbol resolves to an exported global whose value is
    neither a 32-bit nor a 64-bit integer, `DlState.get_symbol` returns
    `none`. -/
theorem c8_non_integer_global_none
    (s : DlState) (h : Nat) (sym : String) (md : ModuleData)
    (hmd : s.modules.lookup h = some md)
    (hg : md.inst.globals sym = some WasmValue.otherVal) :
    DlState.get_symbol s h sym = none := by
  simp [DlState.get_symbol, hmd, hg, WasmValue.asUsize]

/-- Claim C8 witness: the unsupported-type export `f` of `exState`. -/
theorem c8_witness : DlState.get_symbol exState 1 "f" = none :=
  c8_non_integer_global_none exState 1 "f" exMd rfl rfl

/- Claim C10. -/

/-- Claim C10: every value that the registry lookup returns is the
    zero-extension of exactly 4 bytes read little-endian at the global's
    offset, hence strictly below `2 ^ 32`; and every value `dlsym` writes to
    `out_value_ptr` is such a lookup result, hence also below `2 ^ 32`. -/
theorem c10_lookup_always_u32 :
    (∀ (s : DlState) (h : Nat) (sym : String) (v : Nat),
      DlState.get_symbol s h sym = some v →
        v < 2 ^ 32 ∧
        ∃ md g off, s.modules.lookup h = some md ∧
          md.inst.globals sym = some g ∧ g.asUsize = some off ∧
          off + 4 ≤ md.memory.length ∧ v = readLeN md.memory off 4) ∧
    (∀ (env : DlSymEnv) (s : DlState) (h : Nat) (e : Errno) (v : Nat),
      dlsym env s h = (e, some v) → v < 2 ^ 32) := by
  have key : ∀ (s : DlState) (h : Nat) (sym : String) (v : Nat),
      DlState.get_symbol s h sym = some v →
        v < 2 ^ 32 ∧
        ∃ md g off, s.modules.lookup h = some md ∧
          md.inst.globals sym = some g ∧ g.asUsize = some off ∧
          off + 4 ≤ md.memory.length ∧ v = readLeN md.memory off 4 := by
    intro s h sym v hv
    unfold DlState.get_symbol at hv
    split at hv
    · cases hv
    · rename_i md hmd
      split at hv
      · cases hv
      · rename_i g hg
        split at hv
        · cases hv
        · rename_i off hoff
          split at hv
          · rename_i hle
            have hv' : readLeN md.memory off 4 = v := Option.some.inj hv
            refine ⟨?_, md, g, off, hmd, hg, hoff, hle, hv'.symm⟩
            have := readLeN_lt 4 md.memory off
            have h4 : (256 : Nat) ^ 4 = 2 ^ 32 := by norm_num
            omega
          · cases hv
  refine ⟨key, ?_⟩
  intro env s h e v hv
  unfold dlsym at hv
  split at hv
  · cases (Prod.mk.inj hv).2
  · rename_i sym hsym
    split at hv
    · cases (Prod.mk.inj hv).2
    · rename_i w hw
      split at hv
      · have hvw : w = v := Option.some.inj (Prod.mk.inj hv).2
        subst hvw
        exact (key s h sym w hw).1
      · cases (Prod.mk.inj hv).2

/-- Claim C10 witness: the lookup on `exState` returns `0x44556677`, which is
    below `2 ^ 32`. -/
theorem c10_witness : (0x44556677 : Nat) < 2 ^ 32 :=
  (c10_lookup_always_u32.1 exState 1 "g" 0x44556677 (by decide)).1

/- Claim C5. -/

/-- Claim C5: after the preamble falls through, any decoded flags value other
    than `Now` makes `dlopen` return `Notsup`, leave the registry untouched
    and write nothing to `out_handle_ptr`. -/
theorem c5_flags_notsup (env : DlOpenEnv) (s : DlState)
    (h1 : env.preamble = none) (h2 : env.flags ≠ DlFlags.Now) :
    dlopen env s = ⟨Errno.Notsup, s, none, []⟩ := by
  unfold dlopen
  rw [h1]
  simp only [if_pos h2]

/-- Claim C5 witness: the `Lazy`-flag environment of scenario S5. -/
theorem c5_witness : dlopen envLazy DlState.new = ⟨Errno.Notsup, DlState.new, none, []⟩ :=
  c5_flags_notsup envLazy DlState.new rfl (by decide)

/- Claim C7. -/

/-- Claim C7 (counterexample): a `dlsym` call whose registry lookup succeeds
    but whose write to `out_value_ptr` fails returns `Inval`, not the
    `Success` the claim requires for every successful lookup. -/
theorem c7_counterexample :
    DlState.get_symbol exState 1 "g" = some 0x44556677 ∧
    dlsym ⟨some "g", false⟩ exState 1 = (Errno.Inval, none) ∧
    Errno.Inval ≠ Errno.Success := by
  refine ⟨by decide, by decide, by decide⟩

/-- Claim C7 (amended): `dlsym` returns `Inval` when reading the symbol name
    fails and when the lookup yields `None`; when the lookup yields a value
    it attempts the 64-bit write to `out_value_ptr`, returning `Success` if
    the write succeeds and `Inval` (with nothing written) if it fails. -/
theorem c7_amended_dlsym_paths (env : DlSymEnv) (s : DlState) (h : Nat) :
    (env.symbolRead = none → dlsym env s h = (Errno.Inval, none)) ∧
    (∀ sym, env.symbolRead = some sym → s.get_symbol h sym = none →
      dlsym env s h = (Errno.Inval, none)) ∧
    (∀ sym v, env.symbolRead = some sym → s.get_symbol h sym = some v →
      env.writeOk = true → dlsym env s h = (Errno.Success, some v)) ∧
    (∀ sym v, env.symbolRead = some sym → s.get_symbol h sym = some v →
      env.writeOk = false → dlsym env s h = (Errno.Inval, none)) := by
  refine ⟨?_, ?_, ?_, ?_⟩
  · intro hn; unfold dlsym; rw [hn]
  · intro sym hs hg; unfold dlsym; rw [hs]; simp only [hg]
  · intro sym v hs hg hw; unfold dlsym; rw [hs]; simp only [hg, hw, if_pos]
  · intro sym v hs hg hw; unfold dlsym; rw [hs]; simp only [hg, hw]; rfl

/-- Claim C7 witness: the successful-write path on `exState`. -/
theorem c7_witness :
    dlsym ⟨some "g", true⟩ exState 1 = (Errno.Success, some 0x44556677) :=
  (c7_amended_dlsym_paths ⟨some "g", true⟩ exState 1).2.2.1 "g" 0x44556677
    rfl (by decide) rfl

/- Claim C2. -/

/-- Claim C2 (counterexample): a `dlopen` whose child constructor is invoked
    and fails (the discarded outcome list is `[false]`) still returns
    `Success` with the handle registered, refuting the claimed `Inval`
    return. -/
theorem c2_counterexample :
    (dlopen envEx DlState.new).ctorResults = [false] ∧
    (dlopen envEx DlState.new).errno = Errno.Success ∧
    Errno.Success ≠ Errno.Inval ∧
    ((dlopen envEx DlState.new).state.modules.lookup 1).isSome = true ∧
    (dlopen envEx DlState.new).writtenHandle = some 1 := by
  refine ⟨by decide, by decide, by decide, by decide, by decide⟩

/-- Claim C2 (amended): when `dlopen` reaches step 9 and the child's
    `__wasm_call_ctors` fails, the failure is discarded: `dlopen` returns
    `Success` (given that the final handle write succeeds), and the handle
    allocated in step 8 remains registered (it is not rolled back). -/
theorem c2_amended_ctor_failure_ignored (env : DlOpenEnv) (s : DlState)
    (p : String) (b mem : List Byte)
    (h1 : env.preamble = none) (h2 : env.flags = DlFlags.Now)
    (h3 : env.pathRead = some p) (h4 : env.fileBytes = some b)
    (h5 : env.compileOk = true) (h6 : env.envInnerOk = true)
    (h7 : env.primaryMemory = some mem) (h8 : env.instantiateOk = true)
    (h9 : env.writeHandleOk = true)
    (hc : env.childInstance.hasCtor = true)
    (hf : env.childInstance.ctorOk = false) :
    (dlopen env s).errno = Errno.Success ∧
    (dlopen env s).state.modules.lookup (s.next_handle % u32Mod) =
      some ⟨env.childInstance, mem⟩ ∧
    (dlopen env s).writtenHandle = some (s.next_handle % u32Mod) ∧
    false ∈ (dlopen env s).ctorResults := by
  unfold dlopen
  rw [h1, h2, h3, h4, h5, h6, h7, h8, h9]
  simp only [DlState.add_module, List.filterMap_cons, hc, hf, if_pos,
    decide_not, ne_eq, not_true_eq_false, if_false, Bool.false_eq_true,
    ite_true, ite_false]
  refine ⟨rfl, ?_, rfl, ?_⟩
  · simp [List.lookup]
  · simp

/-- Claim C2 witness: the amended theorem on the concrete environment
    `envEx`. -/
theorem c2_witness :
    (dlopen envEx DlState.new).errno = Errno.Success ∧
    (dlopen envEx DlState.new).state.modules.lookup (DlState.new.next_handle % u32Mod) =
      some ⟨envEx.childInstance, exMem8⟩ ∧
    (dlopen envEx DlState.new).writtenHandle = some (DlState.new.next_handle % u32Mod) ∧
    false ∈ (dlopen envEx DlState.new).ctorResults :=
  c2_amended_ctor_failure_ignored envEx DlState.new "/lib/side.wasm" [] exMem8
    rfl rfl rfl rfl rfl rfl rfl rfl rfl rfl rfl

/- Claim C6. -/

/-- Running a sequence of registry operations from a state whose counter is
    a valid u32 and will not wrap issues exactly the handles
    `next_handle, next_handle + 1, ...`, one per `register`, and leaves the
    counter at the wrapped sum. -/
theorem runOps_issued (ops : List RegOp) : ∀ s : DlState,
    s.next_handle < u32Mod → s.next_handle + registerCount ops ≤ u32Mod →
    (runOps s ops).2 = List.range' s.next_handle (registerCount ops) ∧
    (runOps s ops).1.next_handle = (s.next_handle + registerCount ops) % u32Mod := by
  induction ops with
  | nil =>
    intro s h1 h2
    refine ⟨rfl, ?_⟩
    simp only [runOps, registerCount, Nat.add_zero]
    exact (Nat.mod_eq_of_lt h1).symm
  | cons op ops ih =>
    cases op with
    | register inst mem =>
      intro s h1 h2
      simp only [registerCount] at h2 ⊢
      have hmod : s.next_handle % u32Mod = s.next_handle := Nat.mod_eq_of_lt h1
      have hcase : s.next_handle + 1 < u32Mod ∨
          (s.next_handle + 1 = u32Mod ∧ registerCount ops = 0) := by omega
      rcases hcase with hlt | ⟨heq, hzero⟩
      · have hmod1 : (s.next_handle + 1) % u32Mod = s.next_handle + 1 :=
          Nat.mod_eq_of_lt hlt
        have hrec := ih ⟨(s.next_handle % u32Mod, ⟨inst, mem⟩) :: s.modules,
            (s.next_handle + 1) % u32Mod, s.last_error⟩
            (by simp only [hmod1]; exact hlt) (by simp only [hmod1]; omega)
        simp only [runOps, DlState.add_module] at hrec ⊢
        refine ⟨?_, ?_⟩
        · rw [hrec.1, hmod, hmod1, List.range'_succ]
        · rw [hrec.2, hmod1]
          congr 1
          omega
      · have hmod1 : (s.next_handle + 1) % u32Mod = 0 := by
          rw [heq]; exact Nat.mod_self u32Mod
        have hrec := ih ⟨(s.next_handle % u32Mod, ⟨inst, mem⟩) :: s.modules,
            (s.next_handle + 1) % u32Mod, s.last_error⟩
            (by simp only [hmod1]; simp [u32Mod])
            (by simp only [hmod1, hzero]; simp [u32Mod])
        simp only [runOps, DlState.add_module] at hrec ⊢
        refine ⟨?_, ?_⟩
        · rw [hrec.1, hmod, hzero, List.range'_succ]
          simp [List.range']
        · rw [hrec.2, hmod1, hzero, heq]
          simp
    | close h =>
      intro s h1 h2
      simp only [registerCount] at h2
      have hrec := ih (s.close h) h1 h2
      simp only [runOps, DlState.close] at hrec ⊢
      exact hrec

/-- Claim C6 (counterexample): starting from a fresh registry, a sequence of
    `2 ^ 32` registrations issues the handle 0 (the `AtomicU32` counter
    wraps), refuting both "strictly increasing" and "handle 0 is never
    issued" for that sequence. -/
theorem c6_counterexample :
    0 ∈ (runOps DlState.new (List.replicate (2 ^ 32) (RegOp.register exInst exMem8))).2 := by
  have hcnt : ∀ n : Nat, registerCount (List.replicate n (RegOp.register exInst exMem8)) = n := by
    intro n
    induction n with
    | zero => rfl
    | succ n ih => simp only [List.replicate_succ, registerCount, ih]
  have happ : ∀ (l1 l2 : List RegOp) (s : DlState),
      runOps s (l1 ++ l2) =
        ((runOps (runOps s l1).1 l2).1, (runOps s l1).2 ++ (runOps (runOps s l1).1 l2).2) := by
    intro l1
    induction l1 with
    | nil => intro l2 s; simp [runOps]
    | cons op l1 ih =>
      intro l2 s
      cases op with
      | register inst mem =>
        simp only [List.cons_append, runOps, List.append_eq, ih]
      | close h =>
        simp only [List.cons_append, runOps, List.append_eq, ih]
  have hsplit : List.replicate (2 ^ 32) (RegOp.register exInst exMem8) =
      List.replicate (2 ^ 32 - 1) (RegOp.register exInst exMem8) ++
        [RegOp.register exInst exMem8] := by
    conv_lhs => rw [show (2 ^ 32 : Nat) = (2 ^ 32 - 1) + 1 from by norm_num]
    rw [List.replicate_succ']
  rw [hsplit, happ]
  have hfirst := runOps_issued (List.replicate (2 ^ 32 - 1) (RegOp.register exInst exMem8))
      DlState.new (by simp [DlState.new, u32Mod]) (by rw [hcnt]; simp [DlState.new, u32Mod])
  have hnext : (runOps DlState.new
      (List.replicate (2 ^ 32 - 1) (RegOp.register exInst exMem8))).1.next_handle = 0 := by
    rw [hfirst.2, hcnt]
    have : DlState.new.next_handle + (2 ^ 32 - 1) = u32Mod := by
      simp [DlState.new, u32Mod]
    rw [this, Nat.mod_self]
  have hsingle : ∀ s' : DlState, s'.next_handle = 0 →
      (runOps s' [RegOp.register exInst exMem8]).2 = [0] := by
    intro s' h0
    simp only [runOps, DlState.add_module, h0]
    norm_num [u32Mod]
  dsimp only
  rw [hsingle _ hnext]
  exact List.mem_append_right _ (List.mem_singleton.mpr rfl)

/-- Claim C6 (amended): as long as fewer than `2 ^ 32` registrations occur
    within the process lifetime, the handles issued by a fresh registry are
    exactly `1, 2, 3, ...` in order: strictly increasing, beginning at 1,
    handle 0 is never issued, no handle value repeats, and closing a handle
    never causes its value to be issued again (the counter is a wrapping
    `AtomicU32`, so a `2 ^ 32`-th registration would issue 0). -/
theorem c6_amended_handles_fresh (ops : List RegOp)
    (hle : registerCount ops ≤ 2 ^ 32 - 1) :
    (runOps DlState.new ops).2 = List.range' 1 (registerCount ops) ∧
    List.Pairwise (· < ·) (runOps DlState.new ops).2 ∧
    0 ∉ (runOps DlState.new ops).2 ∧
    (runOps DlState.new ops).2.Nodup := by
  have h := runOps_issued ops DlState.new (by simp [DlState.new, u32Mod])
      (by simp only [DlState.new, u32Mod] at *; omega)
  have hiss : (runOps DlState.new ops).2 = List.range' 1 (registerCount ops) := h.1
  refine ⟨hiss, ?_, ?_, ?_⟩
  · rw [hiss]; exact List.pairwise_lt_range' 1 (registerCount ops)
  · rw [hiss]
    intro hmem
    have := List.mem_range'_1.mp hmem
    omega
  · rw [hiss]; exact List.nodup_range' 1 (registerCount ops)

/-- Claim C6 witness: the amended theorem on the concrete sequence `opsEx`
    (registrations interleaved with a close). -/
theorem c6_witness :
    (runOps DlState.new opsEx).2 = List.range' 1 (registerCount opsEx) ∧
    List.Pairwise (· < ·) (runOps DlState.new opsEx).2 ∧
    0 ∉ (runOps DlState.new opsEx).2 ∧
    (runOps DlState.new opsEx).2.Nodup :=
  c6_amended_handles_fresh opsEx (by decide)

/- Claims C3, C4, C9: the execution engine. -/

/-- Whenever `call_module` returns (any non-deep-sleep outcome, including the
    rewind-failure and missing-`_start` error paths), `run_recycle` is
    invoked exactly once. -/
theorem call_module_terminal_recycle (env : CallEnv)
    (h : (call_module env).2 = none) :
    recycleCount (call_module env).1 = 1 := by
  obtain ⟨rs, re, hsb, so, hr⟩ := env
  rcases rs with _ | p
  · cases hsb
    · simp [call_module, recycleCount, guardFinish]
    · rcases so with _ | c | _ | d | _ | a
      · simp [call_module, recycleCount, terminalEvents]
      · by_cases hc : c = 0
        · subst hc; simp [call_module, recycleCount, terminalEvents]
        · have hc' : (c == 0) = false := by simpa using hc
          simp [call_module, recycleCount, terminalEvents, hc']
      · simp [call_module, recycleCount, terminalEvents]
      · simp [call_module] at h
      · simp [call_module, recycleCount, terminalEvents]
      · simp [call_module, recycleCount, terminalEvents]
  · rcases hre : re == Errno.Success with _ | _
    · have : (re != Errno.Success) = true := by simp [bne, hre]
      simp [call_module, this, recycleCount, guardFinish]
    · have hre' : re = Errno.Success := by simpa using hre
      subst hre'
      cases hsb
      · simp [call_module, recycleCount, guardFinish]
      · rcases so with _ | c | _ | d | _ | a
        · simp [call_module, recycleCount, terminalEvents]
        · by_cases hc : c = 0
          · subst hc; simp [call_module, recycleCount, terminalEvents]
          · have hc' : (c == 0) = false := by simpa using hc
            simp [call_module, recycleCount, terminalEvents, hc']
        · simp [call_module, recycleCount, terminalEvents]
        · simp [call_module] at h
        · simp [call_module, recycleCount, terminalEvents]
        · simp [call_module, recycleCount, terminalEvents]

/-- Claim C4: when `_start` is invoked (the rewind phase passes and the
    export exists) and returns `Ok`, the exit code is `Success`, the thread
    is explicitly finished with `Ok(Success)`, the recycler runs exactly
    once, and the runtime is not tainted. -/
theorem c4_start_ok_success (env : CallEnv)
    (hrw : env.rewind_state = none ∨ env.rewindErrno = Errno.Success)
    (hs : env.hasStart = true)
    (ho : env.startOutcome = StartOutcome.startOk) :
    call_module env =
      ([Event.setRunning, Event.onExit 0, Event.recycle,
        Event.setFinished (FinishStatus.finOk 0)], none) ∧
    recycleCount (call_module env).1 = 1 ∧
    ∀ t, Event.taintEvt t ∉ (call_module env).1 := by
  obtain ⟨rs, re, hsb, so, hr⟩ := env
  simp only at hs ho hrw
  subst hs ho
  have hcm : call_module ⟨rs, re, true, StartOutcome.startOk, hr⟩ =
      ([Event.setRunning, Event.onExit 0, Event.recycle,
        Event.setFinished (FinishStatus.finOk 0)], none) := by
    rcases hrw with h | h
    · subst h
      simp [call_module, terminalEvents, Errno.toExitCode]
    · subst h
      cases rs <;> simp [call_module, terminalEvents, Errno.toExitCode]
  refine ⟨hcm, ?_, ?_⟩
  · rw [hcm]; decide
  · intro t; rw [hcm]; simp

/-- Claim C9: after a passing rewind phase, (a) a `_start` that fails with a
    non-success `Exit(code)` taints the runtime with `NonZeroExitCode(code)`
    and finishes the thread with an error whose `as_exit_code` is that code,
    and (b) a missing `_start` runs on-exit with `Noexec` and the thread is
    finished with the corresponding error (via the spec-modelled run
    guard). -/
theorem c9_error_paths (env : CallEnv)
    (hrw : env.rewind_state = none ∨ env.rewindErrno = Errno.Success) :
    (∀ c, env.hasStart = true → env.startOutcome = StartOutcome.exit c → c ≠ 0 →
      call_module env =
        ([Event.setRunning, Event.taintEvt (TaintReason.NonZeroExitCode c),
          Event.onExit c, Event.recycle,
          Event.setFinished (FinishStatus.finErr (ThreadError.exitErr c))], none) ∧
      (ThreadError.exitErr c).asExitCode = some c) ∧
    (env.hasStart = false →
      call_module env =
        ([Event.setRunning, Event.onExit Errno.Noexec.toExitCode, Event.recycle,
          guardFinish Errno.Noexec.toExitCode], none)) := by
  obtain ⟨rs, re, hsb, so, hr⟩ := env
  simp only at hrw ⊢
  constructor
  · intro c hs ho hc
    subst hs ho
    have hc' : (c == 0) = false := by simpa using hc
    refine ⟨?_, rfl⟩
    rcases hrw with h | h
    · subst h
      simp [call_module, terminalEvents, ThreadError.asExitCode, hc']
    · subst h
      cases rs <;>
        simp [call_module, terminalEvents, ThreadError.asExitCode, hc']
  · intro hs
    subst hs
    rcases hrw with h | h
    · subst h
      simp [call_module, guardFinish]
    · subst h
      cases rs <;> simp [call_module, guardFinish]

/-- Claim C3: a `DeepSleep` outcome makes `call_module` return after only the
    running-status transition (no on-exit, no recycle, no `Finished`
    transition), handing the rewind payload, trigger and recycler to the
    respawn continuation; invoking that continuation re-enters `call_module`
    with `rewind_state = Some((rewind, RewindWithResult(result)))`; and over
    the suspension/resumption pair the recycler runs exactly once, at the
    final (returning) invocation. -/
theorem c3_deep_sleep_protocol (env : CallEnv) (d : DeepSleepData)
    (hrw : env.rewind_state = none ∨ env.rewindErrno = Errno.Success)
    (hs : env.hasStart = true)
    (ho : env.startOutcome = StartOutcome.deepSleep d) :
    call_module env = ([Event.setRunning], some ⟨d.rewind, d.trigger, env.hasRecycler⟩) ∧
    (∀ (renv : ResumeEnv) (r : RewindResult),
      respawn ⟨d.rewind, d.trigger, env.hasRecycler⟩ renv r =
        call_module ⟨some (d.rewind, RewindResultType.RewindWithResult r),
          renv.rewindErrno, renv.hasStart, renv.startOutcome, env.hasRecycler⟩) ∧
    (∀ (renv : ResumeEnv) (r : RewindResult),
      (respawn ⟨d.rewind, d.trigger, env.hasRecycler⟩ renv r).2 = none →
      recycleCount (call_module env).1 +
        recycleCount (respawn ⟨d.rewind, d.trigger, env.hasRecycler⟩ renv r).1 = 1) := by
  obtain ⟨rs, re, hsb, so, hr⟩ := env
  simp only at hrw hs ho ⊢
  subst hs ho
  have hcm : call_module ⟨rs, re, true, StartOutcome.deepSleep d, hr⟩ =
      ([Event.setRunning], some ⟨d.rewind, d.trigger, hr⟩) := by
    rcases hrw with h | h
    · subst h; simp [call_module]
    · subst h; cases rs <;> simp [call_module]
  refine ⟨hcm, fun renv r => rfl, ?_⟩
  intro renv r hterm
  rw [hcm]
  have h1 := call_module_terminal_recycle
    ⟨some (d.rewind, RewindResultType.RewindWithResult r),
      renv.rewindErrno, renv.hasStart, renv.startOutcome, hr⟩ hterm
  simpa [respawn, recycleCount] using h1

/-- Claim C3 witness: the concrete deep-sleeping environment `cmEnvDeep`. -/
theorem c3_witness :
    call_module cmEnvDeep = ([Event.setRunning], some ⟨dEx.rewind, dEx.trigger, true⟩) ∧
    respawn ⟨dEx.rewind, dEx.trigger, true⟩ resEnvOk [] =
      call_module ⟨some (dEx.rewind, RewindResultType.RewindWithResult []),
        Errno.Success, true, StartOutcome.startOk, true⟩ ∧
    recycleCount (call_module cmEnvDeep).1 +
      recycleCount (respawn ⟨dEx.rewind, dEx.trigger, true⟩ resEnvOk []).1 = 1 := by
  have h := c3_deep_sleep_protocol cmEnvDeep dEx (Or.inl rfl) rfl rfl
  exact ⟨h.1, h.2.1 resEnvOk [], h.2.2 resEnvOk [] (by decide)⟩

/-- Claim C4 witness: the concrete environment `cmEnvOk`. -/
theorem c4_witness :
    call_module cmEnvOk =
      ([Event.setRunning, Event.onExit 0, Event.recycle,
        Event.setFinished (FinishStatus.finOk 0)], none) :=
  (c4_start_ok_success cmEnvOk (Or.inl rfl) rfl rfl).1

/-- Claim C9 witness: `Exit(7)` and the missing-`_start` environment. -/
theorem c9_witness :
    call_module cmEnvExit7 =
      ([Event.setRunning, Event.taintEvt (TaintReason.NonZeroExitCode 7),
        Event.onExit 7, Event.recycle,
        Event.setFinished (FinishStatus.finErr (ThreadError.exitErr 7))], none) ∧
    call_module cmEnvNoStart =
      ([Event.setRunning, Event.onExit Errno.Noexec.toExitCode, Event.recycle,
        guardFinish Errno.Noexec.toExitCode], none) :=
  ⟨((c9_error_paths cmEnvExit7 (Or.inl rfl)).1 7 rfl rfl (by decide)).1,
   (c9_error_paths cmEnvNoStart (Or.inl rfl)).2 rfl⟩
